import Mathlib

/-!
Verification development for the Door Se Kaam remote-desktop server
(src/server). The definitions below are a shallow embedding of the
adaptive capture/streaming engine (src/server/screen_capture.py), the
helper-process bridges (screen_capture.py and input_handler.py) and the
input command router (src/server/input_handler.py), translated directly
from the Python source. Time values are modelled as rationals, Python
ints as Lean Int, and the external world (capture outcomes, helper
output lines, backend exceptions) as explicit environment data.
-/

namespace DSK

/-! ## Configuration (src/server/config.py, class ServerConfig) -/

/-- Embedding of the capture-relevant fields of `ServerConfig`
(config.py lines 31-34). -/
structure ServerConfig where
  capture_fps : Int
  capture_quality : Int
  capture_monitor : Int
deriving DecidableEq, Repr

/-- The dataclass defaults: capture_fps = 15, capture_quality = 60,
capture_monitor = 0 (config.py lines 32-34). -/
def defaultConfig : ServerConfig :=
  { capture_fps := 15, capture_quality := 60, capture_monitor := 0 }

/-- Python truthiness-based defaulting `x or y` for an optional integer
argument: `None` and `0` are falsy and select the default `y`. -/
def pyOrInt (x : Option Int) (y : Int) : Int :=
  match x with
  | none => y
  | some v => if v = 0 then y else v

/-! ## ScreenCapture state (src/server/screen_capture.py) -/

/-- The mutable fields of a `ScreenCapture` object that the capture loop
and the adaptation logic touch (screen_capture.py lines 39-53). -/
structure ScreenCapture where
  fps : Int
  quality : Int
  monitor : Int
  frame_times : List ℚ
  adaptive_quality : Int
  adaptive_fps : Int
deriving DecidableEq, Repr

/-- `ScreenCapture.__init__` (screen_capture.py lines 39-53):
`self.fps = fps or config.capture_fps`,
`self.quality = quality or config.capture_quality`,
`self.monitor = monitor if monitor is not None else config.capture_monitor`,
`self._frame_times = []`, `self._adaptive_quality = self.quality`,
`self._adaptive_fps = self.fps`. -/
def ScreenCapture.init (cfg : ServerConfig) (fps quality monitor : Option Int) :
    ScreenCapture :=
  let f := pyOrInt fps cfg.capture_fps
  let q := pyOrInt quality cfg.capture_quality
  let m := match monitor with | none => cfg.capture_monitor | some v => v
  { fps := f, quality := q, monitor := m, frame_times := [],
    adaptive_quality := q, adaptive_fps := f }

/-- The last `n` elements of a list (everything before them dropped),
the meaning of the Python slice `xs[-n:]`. -/
def lastN (n : Nat) (xs : List ℚ) : List ℚ :=
  xs.drop (xs.length - n)

/-- The sample list after `_update_adaptive` appends `t` and truncates to
the last 30 entries (screen_capture.py lines 394-396):
`self._frame_times.append(frame_time)` followed by
`if len(self._frame_times) > 30: self._frame_times = self._frame_times[-30:]`. -/
def newFrameTimes (s : ScreenCapture) (t : ℚ) : List ℚ :=
  let ft0 := s.frame_times ++ [t]
  if 30 < ft0.length then ft0.drop (ft0.length - 30) else ft0

/-- The new `_adaptive_fps` computed by `_update_adaptive` once at least
5 samples are present (screen_capture.py lines 400-407):
`avg_time = sum(self._frame_times)/len(self._frame_times)`,
`target_time = 1.0/self.fps`; if `avg_time > target_time * 1.5` then
`max(3, self._adaptive_fps - 1)`, elif `avg_time < target_time * 0.5`
then `min(self.fps, self._adaptive_fps + 1)`, else unchanged. -/
def adaptedFps (s : ScreenCapture) (t : ℚ) : Int :=
  let ft := newFrameTimes s t
  let avg := ft.sum / (ft.length : ℚ)
  let target : ℚ := 1 / (s.fps : ℚ)
  if target * (3 / 2) < avg then max 3 (s.adaptive_fps - 1)
  else if avg < target * (1 / 2) then min s.fps (s.adaptive_fps + 1)
  else s.adaptive_fps

/-- `ScreenCapture._update_adaptive` (screen_capture.py lines 392-410):
appends the sample, truncates the window to 30, returns without any
adjustment when fewer than 5 samples are present, otherwise recomputes
`_adaptive_fps` and re-asserts `_adaptive_quality = self.quality`. -/
def updateAdaptive (s : ScreenCapture) (t : ℚ) : ScreenCapture :=
  if (newFrameTimes s t).length < 5 then
    { s with frame_times := newFrameTimes s t }
  else
    { s with frame_times := newFrameTimes s t,
             adaptive_fps := adaptedFps s t,
             adaptive_quality := s.quality }

/-! ## The stream_frames loop (screen_capture.py lines 323-390)

The loop is driven by an environment script: each iteration either
acquires a frame (with a measured elapsed time), observes missing frame
data (`frame_data is None`), or hits an exception inside the iteration
body, which the source catches at lines 380-385. -/

/-- Outcome of one iteration of the capture loop, as decided by the
environment (backend, OS): a successful acquisition with its measured
elapsed time, acquisition returning no data, or an exception raised in
the iteration body (caught at screen_capture.py lines 380-385). -/
inductive CaptureOutcome
  | success (frameTime : ℚ)
  | failNone
  | failExc
deriving DecidableEq, Repr

/-- Observable events of the capture loop: a yielded frame recorded with
the session state at yield time (configured quality, adaptive quality,
configured fps, adaptive fps), the 0.5-second backoff sleep taken on an
acquisition failure, and the pacing sleep after a yield. -/
inductive StreamEvent
  | yielded (quality adaptive_quality fps adaptive_fps : Int)
  | retrySleep (d : ℚ)
  | paceSleep (d : ℚ)
deriving DecidableEq, Repr

/-- The loop-local state of one `stream_frames` run: the capture object
plus the `error_count` local (screen_capture.py line 331). -/
structure LoopState where
  cap : ScreenCapture
  error_count : Nat
deriving DecidableEq, Repr

/-- State at entry of `stream_frames` (screen_capture.py lines 328-331):
`self._adaptive_quality = self.quality`, `self._adaptive_fps = self.fps`,
`error_count = 0`. `_frame_times` is not reset. -/
def streamInit (s : ScreenCapture) : LoopState :=
  ⟨{ s with adaptive_quality := s.quality, adaptive_fps := s.fps }, 0⟩

/-- One iteration of the `stream_frames` loop body
(screen_capture.py lines 337-385). `none` means the loop broke out
(too many consecutive failures); the event list records the yield and
sleeps of that iteration. On success the elapsed time is fed to
`_update_adaptive`, the frame is yielded, and the loop sleeps
`max(0.001, 1/_adaptive_fps - frame_time)`. On failure the error
counter is incremented; if it exceeds 10 the loop breaks, otherwise it
sleeps 0.5 s and retries. -/
def streamStep (st : LoopState) (o : CaptureOutcome) :
    Option LoopState × List StreamEvent :=
  match o with
  | .success t =>
    let c := updateAdaptive st.cap t
    (some ⟨c, 0⟩,
      [.yielded c.quality c.adaptive_quality c.fps c.adaptive_fps,
       .paceSleep (max (1 / 1000) (1 / (c.adaptive_fps : ℚ) - t))])
  | .failNone =>
    if 10 < st.error_count + 1 then (none, [])
    else (some ⟨st.cap, st.error_count + 1⟩, [.retrySleep (1 / 2)])
  | .failExc =>
    if 10 < st.error_count + 1 then (none, [])
    else (some ⟨st.cap, st.error_count + 1⟩, [.retrySleep (1 / 2)])

/-- Run the capture loop over a script of iteration outcomes, collecting
all events; the final component is `none` when the loop terminated by
breaking out (error exhaustion) before consuming the whole script. -/
def streamRun (st : LoopState) : List CaptureOutcome → List StreamEvent × Option LoopState
  | [] => ([], some st)
  | o :: os =>
    match streamStep st o with
    | (none, evs) => (evs, none)
    | (some st2, evs) =>
      let r := streamRun st2 os
      (evs ++ r.1, r.2)

/-! ## Inbound control messages on the streaming channel
(src/server/main.py, ws_screen, lines 213-229) -/

/-- A control message drained between frames by `ws_screen`. -/
inductive ControlMsg
  | setQuality (q : Int)
  | setFps (f : Int)
  | setMonitor (m : Int)
deriving DecidableEq, Repr

/-- Effect of one control message on the capture object
(main.py lines 220-227): `set_quality` sets both `quality` and
`_adaptive_quality`, `set_fps` sets both `fps` and `_adaptive_fps`,
`set_monitor` sets `monitor`. -/
def applyControl (s : ScreenCapture) : ControlMsg → ScreenCapture
  | .setQuality q => { s with quality := q, adaptive_quality := q }
  | .setFps f => { s with fps := f, adaptive_fps := f }
  | .setMonitor m => { s with monitor := m }

/-- An event of a full `ws_screen` session: either one capture-loop
iteration or one inbound control message handled between frames. -/
inductive SessionEvent
  | frame (o : CaptureOutcome)
  | control (c : ControlMsg)
deriving DecidableEq, Repr

/-- One session event applied to the loop state: control messages mutate
the capture object only; frame events run one loop iteration. -/
def sessionStep (st : LoopState) : SessionEvent → Option LoopState × List StreamEvent
  | .frame o => streamStep st o
  | .control c => (some ⟨applyControl st.cap c, st.error_count⟩, [])

/-- Run a full session script (loop iterations interleaved with control
messages), collecting events. -/
def sessionRun (st : LoopState) : List SessionEvent → List StreamEvent × Option LoopState
  | [] => ([], some st)
  | e :: es =>
    match sessionStep st e with
    | (none, evs) => (evs, none)
    | (some st2, evs) =>
      let r := sessionRun st2 es
      (evs ++ r.1, r.2)

/-- Effective JPEG quality used by `ScreenCapture.capture_frame`
(screen_capture.py line 204): `q = quality or self._adaptive_quality`,
so `None` and `0` both fall back to the adaptive quality. -/
def effectiveCaptureQuality (s : ScreenCapture) (quality : Option Int) : Int :=
  match quality with
  | none => s.adaptive_quality
  | some v => if v = 0 then s.adaptive_quality else v

/-! ## Backend detection (screen_capture.py lines 64-92) -/

/-- Outcome of the probes `_detect_backend` performs: whether the process
runs under a Wayland session, the result of the gdbus introspection of
the Mutter ScreenCast object (`none` means the call raised
TimeoutExpired or FileNotFoundError, which the source swallows at lines
76-77; `some rc` its return code), and the `_cmd_exists` outcome for
each CLI tool (`_cmd_exists` itself converts a probe exception to
`False` at lines 87-92, so one boolean per tool is faithful). -/
structure ProbeEnv where
  isWayland : Bool
  introspect : Option Int
  grimOk : Bool
  gnomeScreenshotOk : Bool
  spectacleOk : Bool
deriving DecidableEq, Repr

/-- The backend strings `_detect_backend` can return. -/
inductive Backend
  | pipewire
  | grim
  | gnomeScreenshot
  | spectacle
  | mssFallback
  | mss
deriving DecidableEq, Repr

/-- The four backend kinds of the spec data model: compositor-stream,
CLI-tool, synthetic fallback, direct framebuffer. -/
inductive BackendKind
  | compositorStream
  | cliTool
  | fallback
  | direct
deriving DecidableEq, Repr

/-- Kind of each concrete backend string. -/
def Backend.kind : Backend → BackendKind
  | .pipewire => .compositorStream
  | .grim | .gnomeScreenshot | .spectacle => .cliTool
  | .mssFallback => .fallback
  | .mss => .direct

/-- `ScreenCapture._detect_backend` (screen_capture.py lines 64-85):
under Wayland, return "pipewire" when the introspection ran and its
returncode was 0; otherwise pick the first of grim, gnome-screenshot,
spectacle whose executable resolves, else "mss-fallback". When not under
Wayland, return "mss" unconditionally. -/
def detectBackend (e : ProbeEnv) : Backend :=
  if e.isWayland then
    if e.introspect = some 0 then .pipewire
    else if e.grimOk then .grim
    else if e.gnomeScreenshotOk then .gnomeScreenshot
    else if e.spectacleOk then .spectacle
    else .mssFallback
  else .mss

/-! ## Capture-session helper bridge
(`_start_pipewire_session`, screen_capture.py lines 94-131)

The helper speaks the tagged-line dialect. The start protocol polls the
helper stdout with `select` (0.5 s per poll) inside `for _ in range(10)`,
i.e. at most 10 polls. -/

/-- A line-or-nothing observed by one poll of the capture helper stdout:
a `NODE:<int>` line, an `ERROR:` line, a line whose `NODE:` payload does
not parse as an int (so `int(...)` raises, caught at lines 129-131), any
other line (ignored), or no line within the 0.5 s select window. -/
inductive PwLine
  | nodeLine (n : Nat)
  | errLine
  | badLine
  | otherLine
  | noLine
deriving DecidableEq, Repr

/-- Result of scanning the polled lines with the remaining poll budget. -/
inductive PwScan
  | node (n : Nat)
  | errored
  | excRaised
  | timeout
deriving DecidableEq, Repr

/-- The poll loop of `_start_pipewire_session` (lines 110-124): up to
`fuel` polls; a `NODE:` line breaks out with the node id, an `ERROR:`
line aborts, an unparsable line raises (caught by the enclosing try),
anything else lets the loop continue. A script shorter than the budget
means the remaining polls see no line. -/
def scanPw : List PwLine → Nat → PwScan
  | _, 0 => .timeout
  | [], _ + 1 => .timeout
  | l :: ls, n + 1 =>
    match l with
    | .nodeLine k => .node k
    | .errLine => .errored
    | .badLine => .excRaised
    | .otherLine => scanPw ls n
    | .noLine => scanPw ls n

/-- PipeWire session state of a `ScreenCapture` object: `_pw_node_id`
and whether `_pw_session_proc` is still held (the stop path at lines
133-147 terminates the process and clears both fields). -/
structure PwSession where
  nodeId : Option Nat
  procRunning : Bool
deriving DecidableEq, Repr

/-- `_start_pipewire_session` given the lines its polls observe: on a
`NODE:` line within the 10-poll budget the session is ready; in every
other case (`ERROR:` line, exception, or poll budget exhausted with no
node id) `_stop_pipewire_session` runs, terminating the helper. -/
def startPipewireSession (polls : List PwLine) : PwSession :=
  match scanPw polls 10 with
  | .node k => { nodeId := some k, procRunning := true }
  | _ => { nodeId := none, procRunning := false }

/-- Number of `select` polls in `_start_pipewire_session`
(`for _ in range(10)`, line 110). -/
def capturePollCount : Nat := 10

/-- Number of `select` polls in `WaylandInputBackend.start`
(`for _ in range(20)`, input_handler.py line 78). -/
def inputPollCount : Nat := 20

/-- Timeout of each `select` poll in both start protocols (0.5 s). -/
def pollInterval : ℚ := 1 / 2

/-- Worst-case wall-clock budget of the capture-helper start protocol. -/
def captureStartBudget : ℚ := capturePollCount * pollInterval

/-- Worst-case wall-clock budget of the input-helper start protocol. -/
def inputStartBudget : ℚ := inputPollCount * pollInterval

/-! ## Input-injection helper bridge
(`WaylandInputBackend`, input_handler.py lines 52-168)

This helper speaks the JSON-line dialect. -/

/-- A line-or-nothing observed by one poll of the input helper stdout
during `start` (lines 78-90): a JSON status "ready" line, a JSON status
"error" line, some other JSON line (neither branch taken, loop
continues), a line that is not valid JSON (`json.loads` raises, caught
at lines 95-97), an empty line, or no line within the select window. -/
inductive HelperLine
  | readyLine
  | errorLine
  | otherLine
  | badLine
  | noLine
deriving DecidableEq, Repr

/-- Result of scanning the polled helper lines with remaining budget. -/
inductive InScan
  | ready
  | errored
  | excRaised
  | timeout
deriving DecidableEq, Repr

/-- The poll loop of `WaylandInputBackend.start` (lines 78-90): up to
`fuel` polls; a "ready" status returns success, an "error" status breaks
out, invalid JSON raises (caught by the enclosing try), an empty or
other line lets the loop continue. -/
def scanInput : List HelperLine → Nat → InScan
  | _, 0 => .timeout
  | [], _ + 1 => .timeout
  | l :: ls, n + 1 =>
    match l with
    | .readyLine => .ready
    | .errorLine => .errored
    | .badLine => .excRaised
    | .otherLine => scanInput ls n
    | .noLine => scanInput ls n

/-- State of a `WaylandInputBackend`: `_process` (`none` = no handle,
`some alive` = handle whose `poll()` is `None` iff `alive`) and
`_ready`. -/
structure WIB where
  process : Option Bool
  ready : Bool
deriving DecidableEq, Repr

/-- Whether `self._process is not None and self._process.poll() is None`. -/
def WIB.procAlive (b : WIB) : Bool :=
  match b.process with
  | some true => true
  | _ => false

/-- The dead test of `_send` (input_handler.py line 116):
`not self._ready or self._process is None or self._process.poll() is not None`. -/
def WIB.dead (b : WIB) : Bool :=
  !b.ready || !b.procAlive

/-- Environment of one run of the start protocol: the lines observed by
its polls. -/
structure StartEnv where
  polls : List HelperLine
deriving DecidableEq, Repr

/-- The spawn-and-poll phase of `WaylandInputBackend.start`
(input_handler.py lines 59-97) restricted to the runs in which the
`subprocess.Popen` spawn call itself returned a process: no-op if the
process is already running; otherwise poll the spawned helper for the
ready signal for up to 20 polls of 0.5 s. Without a ready signal within
that budget (timeout, error status, or bad JSON), `self.stop()`
terminates the process and the backend stays not ready. The spawn call
at line 66 sits outside the try that begins at line 76 and can itself
raise; that path is modelled by `WIB.startEx`, which extends this
function with the spawn outcome. -/
def WIB.start (b : WIB) (env : StartEnv) : WIB :=
  if b.procAlive then b
  else
    match scanInput env.polls inputPollCount with
    | .ready => { process := some true, ready := true }
    | _ => { process := none, ready := false }

/-- Environment of one full start attempt: whether the
`subprocess.Popen` call itself raises (input_handler.py line 66; `some
msg` models an OSError / FileNotFoundError with text `msg`), and the
lines observed by the polls when a process was spawned. -/
structure SpawnEnv where
  spawnRaises : Option String
  polls : List HelperLine
deriving DecidableEq, Repr

/-- `WaylandInputBackend.start` in full (input_handler.py lines 59-97):
the early return when the process is already running happens before the
spawn; otherwise `subprocess.Popen` runs outside the try that begins at
line 76, so a spawn exception propagates out of `start` uncaught
(`Except.error`); when the spawn returns, the poll phase of `WIB.start`
runs under the try and never raises. -/
def WIB.startEx (b : WIB) (env : SpawnEnv) : Except String WIB :=
  if b.procAlive then .ok b
  else
    match env.spawnRaises with
    | some m => .error m
    | none => .ok (WIB.start b ⟨env.polls⟩)

/-- A response dictionary as returned by `_send`: the `status` field, an
optional `message` field, and an optional `session` payload field for
responses forwarded verbatim from the helper. -/
structure RespDict where
  status : String
  message : Option String := none
  payload : Option String := none
deriving DecidableEq, Repr

/-- What the 2-second response read in `_send` observes (lines 128-134):
a JSON line (modelled by the dictionary it parses to), a line that fails
to parse (`json.loads` raises, caught at lines 135-138), an empty line,
no line within the timeout, or an exception raised by the stdin
write/flush itself. -/
inductive RespOutcome
  | jsonLine (d : RespDict)
  | badJsonLine (msg : String)
  | emptyLine
  | noResponse
  | ioError (msg : String)
deriving DecidableEq, Repr

/-- The guarded body of `_send` (input_handler.py lines 123-138): write
the command, wait up to 2 s for a response line; a parsed line is
returned verbatim, no line or an empty line yields status "ok"
(success-assumed), and any exception is caught, marks the backend not
ready, and yields the error envelope with the exception text. -/
def sendBody (b : WIB) (resp : RespOutcome) : RespDict × WIB :=
  match resp with
  | .jsonLine d => (d, b)
  | .badJsonLine m => ({ status := "error", message := some m }, { b with ready := false })
  | .emptyLine => ({ status := "ok" }, b)
  | .noResponse => ({ status := "ok" }, b)
  | .ioError m => ({ status := "error", message := some m }, { b with ready := false })

/-- `WaylandInputBackend._send` (input_handler.py lines 114-138)
restricted to the runs in which a restart, if one happens, does not hit
a spawn exception: when the backend is dead, clear `_ready` and re-run
the start protocol; if it is still not ready, return the structured
"Input backend not available" error; otherwise run the guarded
send/receive body. The full function including the spawn-exception path
is `WIB.sendEx`. -/
def WIB.send (b : WIB) (env : StartEnv) (resp : RespOutcome) : RespDict × WIB :=
  if b.dead then
    let b1 := WIB.start { b with ready := false } env
    if b1.ready then sendBody b1 resp
    else ({ status := "error", message := some ("Input backend not available") }, b1)
  else sendBody b resp

/-- `WaylandInputBackend._send` in full (input_handler.py lines
114-138): the restart of a dead backend calls `self.start()` at line
119, outside the try that begins at line 123, so a spawn exception
raised inside `start` propagates out of `_send` uncaught
(`Except.error`); every other path returns a response dictionary. -/
def WIB.sendEx (b : WIB) (env : SpawnEnv) (resp : RespOutcome) :
    Except String (RespDict × WIB) :=
  if b.dead then
    match WIB.startEx { b with ready := false } env with
    | .error m => .error m
    | .ok b1 =>
      if b1.ready then .ok (sendBody b1 resp)
      else .ok ({ status := "error", message := some ("Input backend not available") }, b1)
  else .ok (sendBody b resp)

/-! ## Input command router
(`InputHandler.process_command`, input_handler.py lines 252-362) -/

/-- An inbound command message: the `type` field plus the optional
fields the dispatch branches read with `command.get(...)` defaults. -/
structure InputCmd where
  ctype : String
  x : Option Int := none
  y : Option Int := none
  relative : Option Bool := none
  button : Option String := none
  count : Option Int := none
  dx : Option Int := none
  dy : Option Int := none
  key : Option String := none
  modifiers : Option (List String) := none
  keys : Option (List String) := none
  text : Option String := none
  value : Option ℚ := none
  action : Option String := none
  content : Option String := none
deriving DecidableEq, Repr

/-- A call placed against the active input backend (the backend-method
interface shared by `WaylandInputBackend` and `X11InputBackend`). -/
inductive BackendCall
  | mouseMove (x y : Int) (relative : Bool)
  | mouseClick (button : String) (count : Int) (x y : Option Int)
  | mouseScroll (dx dy : Int)
  | mouseDown (button : String)
  | mouseUp (button : String)
  | keyPress (key : String) (modifiers : Option (List String))
  | keyCombo (keys : List String)
  | typeText (text : String)
deriving DecidableEq, Repr

/-- Router state: `_sensitivity` and `_drag_active`
(input_handler.py lines 258-260). -/
structure IHState where
  sensitivity : ℚ
  dragActive : Bool
deriving DecidableEq, Repr

/-- The sensitivity setter clamp (input_handler.py line 283):
`max(0.1, min(5.0, value))`. -/
def clampSensitivity (v : ℚ) : ℚ :=
  max (1 / 10) (min 5 v)

/-- Behaviour of the external world during one command: whether the
backend call raises (with its exception text), and the clipboard state
(`pyperclip` raising, and the content `paste()` returns). -/
structure BackendEnv where
  raise : Option String
  clipboardRaise : Option String
  clipboardContent : String
deriving DecidableEq, Repr

/-- A result dictionary of `process_command`: the ok envelope, the error
envelope with message, or the clipboard result object of
`_handle_clipboard` (status ok with an `action` field and, for `get`,
a `content` field). -/
inductive CmdOutcome
  | ok
  | error (msg : String)
  | clipOk (action : String) (content : Option String)
deriving DecidableEq, Repr

/-- Python `int()` truncation toward zero applied to a rational. -/
def pyTrunc (q : ℚ) : Int :=
  if q < 0 then -(Int.floor (-q)) else Int.floor q

/-- `InputHandler._handle_clipboard` (input_handler.py lines 285-296):
its own try/except converts a pyperclip exception to the error envelope;
otherwise `set` copies and returns the ok/action object, any other
action returns the ok/action/content object. -/
def handleClipboard (env : BackendEnv) (c : InputCmd) : CmdOutcome :=
  let action := c.action.getD ("get")
  match env.clipboardRaise with
  | some m => .error m
  | none =>
    if action = "set" then .clipOk ("set") none
    else .clipOk ("get") (some env.clipboardContent)

/-- The body of the `try` block of `process_command`
(input_handler.py lines 305-358), as an exception-transparent
computation: `Except.error` carries the text of an uncaught exception
together with the state and the backend calls made before it was
raised. Relative mouse moves are scaled by the sensitivity and
truncated with `int()` in the router before the backend call; mouse
down/up toggle `_drag_active` after the backend call returns;
`set_sensitivity` only writes the clamped sensitivity; `clipboard_sync`
delegates to `_handle_clipboard` (which never raises); any other type
returns the unknown-command error envelope. -/
def dispatchBody (st : IHState) (env : BackendEnv) (c : InputCmd) :
    Except (String × IHState × List BackendCall)
      (CmdOutcome × IHState × List BackendCall) :=
  if c.ctype = "mouse_move" then
    let x0 := c.x.getD 0
    let y0 := c.y.getD 0
    let rel := c.relative.getD true
    let x := if rel then pyTrunc ((x0 : ℚ) * st.sensitivity) else x0
    let y := if rel then pyTrunc ((y0 : ℚ) * st.sensitivity) else y0
    match env.raise with
    | some m => .error (m, st, [])
    | none => .ok (.ok, st, [.mouseMove x y rel])
  else if c.ctype = "mouse_click" then
    match env.raise with
    | some m => .error (m, st, [])
    | none => .ok (.ok, st, [.mouseClick (c.button.getD ("left")) (c.count.getD 1) c.x c.y])
  else if c.ctype = "mouse_scroll" then
    match env.raise with
    | some m => .error (m, st, [])
    | none => .ok (.ok, st, [.mouseScroll (c.dx.getD 0) (c.dy.getD 0)])
  else if c.ctype = "mouse_down" then
    match env.raise with
    | some m => .error (m, st, [])
    | none => .ok (.ok, { st with dragActive := true }, [.mouseDown (c.button.getD ("left"))])
  else if c.ctype = "mouse_up" then
    match env.raise with
    | some m => .error (m, st, [])
    | none => .ok (.ok, { st with dragActive := false }, [.mouseUp (c.button.getD ("left"))])
  else if c.ctype = "key_press" then
    match env.raise with
    | some m => .error (m, st, [])
    | none => .ok (.ok, st, [.keyPress (c.key.getD ("")) c.modifiers])
  else if c.ctype = "key_combo" then
    match env.raise with
    | some m => .error (m, st, [])
    | none => .ok (.ok, st, [.keyCombo (c.keys.getD [])])
  else if c.ctype = "type_text" then
    match env.raise with
    | some m => .error (m, st, [])
    | none => .ok (.ok, st, [.typeText (c.text.getD (""))])
  else if c.ctype = "set_sensitivity" then
    .ok (.ok, { st with sensitivity := clampSensitivity (c.value.getD 1) }, [])
  else if c.ctype = "clipboard_sync" then
    .ok (handleClipboard env c, st, [])
  else
    .ok (.error ("Unknown command: " ++ c.ctype), st, [])

/-- The guarded region of `InputHandler.process_command`
(input_handler.py lines 305-362): run the dispatch body under the
catch-all `except Exception` that converts any exception raised in the
body to the error envelope carrying its text. This covers the part of
the call after `ensure_started` has returned; `ensure_started` itself
runs at line 303, before the try at line 305, and can raise through the
unguarded spawn in `start` — the full call including that path is
`processCommandFull`. -/
def processCommand (st : IHState) (env : BackendEnv) (c : InputCmd) :
    CmdOutcome × IHState × List BackendCall :=
  match dispatchBody st env c with
  | .ok r => r
  | .error (m, st2, calls) => (.error m, st2, calls)

/-- `InputHandler.ensure_started` (input_handler.py lines 272-275) with
the Wayland backend: when the backend is not ready
(`not self._backend.is_available`), run `WaylandInputBackend.start`;
nothing here catches a spawn exception, so it propagates. With the X11
backend `ensure_started` does nothing, which corresponds to calling
this with a ready backend state. -/
def ensureStarted (wb : WIB) (env : SpawnEnv) : Except String WIB :=
  if wb.ready then .ok wb
  else WIB.startEx wb env

/-- `InputHandler.process_command` in full (input_handler.py lines
298-362): `ensure_started` runs at line 303, before the try at line
305, so an exception it raises (the unguarded `subprocess.Popen` in
`start`) propagates to the caller (`Except.error`); once it returns,
the guarded dispatch of `processCommand` runs and always returns a
result dictionary. -/
def processCommandFull (wb : WIB) (senv : SpawnEnv) (st : IHState)
    (env : BackendEnv) (c : InputCmd) :
    Except String (CmdOutcome × IHState × List BackendCall) :=
  match ensureStarted wb senv with
  | .error m => .error m
  | .ok _ => .ok (processCommand st env c)

/-- The command types `process_command` dispatches on
(input_handler.py lines 306-353); everything else reaches the
unknown-command branch. -/
def knownCmdTypes : List String :=
  ["mouse_move", "mouse_click", "mouse_scroll", "mouse_down", "mouse_up",
   "key_press", "key_combo", "type_text", "set_sensitivity", "clipboard_sync"]

/-- A concrete capture state used as a counterexample input: configured
fps 10, adaptive fps already at the configured ceiling, and four fast
(1 ms) samples already in the window. -/
def fastWindowCapture : ScreenCapture :=
  { fps := 10, quality := 60, monitor := 0,
    frame_times := [1 / 1000, 1 / 1000, 1 / 1000, 1 / 1000],
    adaptive_quality := 60, adaptive_fps := 10 }

/-! ## Lemmas about the rate-adaptation function -/

theorem newFrameTimes_eq_lastN (s : ScreenCapture) (t : ℚ) :
    newFrameTimes s t = lastN 30 (s.frame_times ++ [t]) := by
  simp only [newFrameTimes, lastN]
  split
  · rfl
  · rename_i h
    rw [Nat.sub_eq_zero_of_le (not_lt.mp h), List.drop_zero]

theorem updateAdaptive_quality (s : ScreenCapture) (t : ℚ) :
    (updateAdaptive s t).quality = s.quality := by
  unfold updateAdaptive
  split <;> rfl

theorem updateAdaptive_fps (s : ScreenCapture) (t : ℚ) :
    (updateAdaptive s t).fps = s.fps := by
  unfold updateAdaptive
  split <;> rfl

theorem updateAdaptive_adaptive_quality (s : ScreenCapture) (t : ℚ)
    (h : s.adaptive_quality = s.quality) :
    (updateAdaptive s t).adaptive_quality = (updateAdaptive s t).quality := by
  unfold updateAdaptive
  split
  · exact h
  · rfl

theorem adaptedFps_bounds (s : ScreenCapture) (t : ℚ)
    (hF : 3 ≤ s.fps) (h1 : 3 ≤ s.adaptive_fps) (h2 : s.adaptive_fps ≤ s.fps) :
    3 ≤ adaptedFps s t ∧ adaptedFps s t ≤ s.fps := by
  simp only [adaptedFps]
  split
  · exact ⟨le_max_left _ _, max_le hF (by omega)⟩
  · split
    · exact ⟨le_min hF (by omega), min_le_left _ _⟩
    · exact ⟨h1, h2⟩

theorem updateAdaptive_fps_bounds (s : ScreenCapture) (t : ℚ)
    (hF : 3 ≤ s.fps) (h1 : 3 ≤ s.adaptive_fps) (h2 : s.adaptive_fps ≤ s.fps) :
    3 ≤ (updateAdaptive s t).adaptive_fps ∧
      (updateAdaptive s t).adaptive_fps ≤ (updateAdaptive s t).fps := by
  rw [updateAdaptive_fps]
  unfold updateAdaptive
  split
  · exact ⟨h1, h2⟩
  · exact adaptedFps_bounds s t hF h1 h2

/-- C3 (amended): the adaptation window after a call is exactly the last
30 elapsed-time samples (oldest dropped); with fewer than 5 samples no
adjustment is made; otherwise, with target interval 1/configured_fps,
the adaptive fps becomes `max 3 (old - 1)` when the window average
exceeds 1.5 times the target, `min configured_fps (old + 1)` when (the
first test having failed) the average is below 0.5 times the target,
and stays unchanged otherwise. The amendment relative to the claim: the
decrement and increment are clamped at the floor 3 and at the ceiling
configured_fps, so at those bounds the step is not "exactly 1". -/
theorem C3_rate_adaptation (s : ScreenCapture) (t : ℚ) :
    (updateAdaptive s t).frame_times = lastN 30 (s.frame_times ++ [t]) ∧
    ((lastN 30 (s.frame_times ++ [t])).length < 5 →
      (updateAdaptive s t).adaptive_fps = s.adaptive_fps) ∧
    (∀ w avg target, w = lastN 30 (s.frame_times ++ [t]) →
      avg = w.sum / (w.length : ℚ) → target = 1 / (s.fps : ℚ) →
      5 ≤ w.length →
      ((target * (3 / 2) < avg →
         (updateAdaptive s t).adaptive_fps = max 3 (s.adaptive_fps - 1)) ∧
       (¬(target * (3 / 2) < avg) → avg < target * (1 / 2) →
         (updateAdaptive s t).adaptive_fps = min s.fps (s.adaptive_fps + 1)) ∧
       (¬(target * (3 / 2) < avg) → ¬(avg < target * (1 / 2)) →
         (updateAdaptive s t).adaptive_fps = s.adaptive_fps))) := by
  refine ⟨?_, ?_, ?_⟩
  · unfold updateAdaptive
    split <;> simp [newFrameTimes_eq_lastN]
  · intro hlen
    unfold updateAdaptive
    rw [if_pos (by rw [newFrameTimes_eq_lastN]; exact hlen)]
  · intro w avg target hw havg htarget hlen
    subst hw; subst havg; subst htarget
    rw [← newFrameTimes_eq_lastN] at hlen ⊢
    refine ⟨?_, ?_, ?_⟩ <;> intro h1
    · unfold updateAdaptive
      rw [if_neg (by omega)]
      show adaptedFps s t = _
      simp only [adaptedFps]
      rw [if_pos h1]
    · intro h2
      unfold updateAdaptive
      rw [if_neg (by omega)]
      show adaptedFps s t = _
      simp only [adaptedFps]
      rw [if_neg h1, if_pos h2]
    · intro h2
      unfold updateAdaptive
      rw [if_neg (by omega)]
      show adaptedFps s t = _
      simp only [adaptedFps]
      rw [if_neg h1, if_neg h2]

/-- C3 counterexample to the claim as stated: a state with 5 samples in
the window, average below half the target interval, and adaptive fps
already at the configured fps. The claim requires an increment by
exactly 1; the code leaves the value at the ceiling. -/
theorem C3_counterexample :
    5 ≤ (lastN 30 (fastWindowCapture.frame_times ++ [1 / 1000])).length ∧
    (lastN 30 (fastWindowCapture.frame_times ++ [1 / 1000])).sum /
        ((lastN 30 (fastWindowCapture.frame_times ++ [1 / 1000])).length : ℚ) <
      (1 / (fastWindowCapture.fps : ℚ)) * (1 / 2) ∧
    (updateAdaptive fastWindowCapture (1 / 1000)).adaptive_fps ≠
      fastWindowCapture.adaptive_fps + 1 := by
  refine ⟨by decide, by norm_num [lastN, fastWindowCapture], ?_⟩
  have hval : (updateAdaptive fastWindowCapture (1 / 1000)).adaptive_fps = 10 := by
    norm_num [updateAdaptive, adaptedFps, newFrameTimes, fastWindowCapture]
  rw [hval]
  decide

/-- C3 witness: the decrement branch taken at a concrete input where the
window average (0.3 s over 5 samples) exceeds 1.5 times the 0.1 s
target, so the adaptive fps drops from 10 to 9. -/
theorem C3_witness :
    (updateAdaptive
        { fps := 10, quality := 60, monitor := 0,
          frame_times := [3 / 10, 3 / 10, 3 / 10, 3 / 10],
          adaptive_quality := 60, adaptive_fps := 10 } (3 / 10)).adaptive_fps =
      max 3 (10 - 1) :=
  ((C3_rate_adaptation _ _).2.2 _ _ _ rfl rfl rfl (by decide)).1 (by norm_num [lastN])

/-- C10: the ScreenCapture interface treats 0 as unspecified.
Constructing with fps 0 or quality 0 (or omitting them) yields the
configured defaults; `capture_frame` called with quality 0 (or none)
encodes at the adaptive quality; and with nonzero config defaults no
constructor call can produce fps 0 or quality 0, and no `capture_frame`
call of a session whose adaptive quality is nonzero can encode at
quality 0. -/
theorem C10_zero_defaults (cfg : ServerConfig) (f q m a : Option Int)
    (s : ScreenCapture) :
    ((ScreenCapture.init cfg (some 0) q m).fps = cfg.capture_fps) ∧
    ((ScreenCapture.init cfg none q m).fps = cfg.capture_fps) ∧
    ((ScreenCapture.init cfg f (some 0) m).quality = cfg.capture_quality) ∧
    ((ScreenCapture.init cfg f none m).quality = cfg.capture_quality) ∧
    (effectiveCaptureQuality s (some 0) = s.adaptive_quality) ∧
    (effectiveCaptureQuality s none = s.adaptive_quality) ∧
    (cfg.capture_fps ≠ 0 → (ScreenCapture.init cfg f q m).fps ≠ 0) ∧
    (cfg.capture_quality ≠ 0 → (ScreenCapture.init cfg f q m).quality ≠ 0) ∧
    (s.adaptive_quality ≠ 0 → effectiveCaptureQuality s a ≠ 0) := by
  refine ⟨rfl, rfl, ?_, ?_, rfl, rfl, ?_, ?_, ?_⟩
  · simp [ScreenCapture.init, pyOrInt]
  · simp [ScreenCapture.init, pyOrInt]
  · intro h
    simp only [ScreenCapture.init, pyOrInt]
    cases f with
    | none => exact h
    | some v =>
      by_cases hv : v = 0
      · simp [hv, h]
      · simp [hv]
  · intro h
    simp only [ScreenCapture.init, pyOrInt]
    cases q with
    | none => exact h
    | some v =>
      by_cases hv : v = 0
      · simp [hv, h]
      · simp [hv]
  · intro h
    cases a with
    | none => exact h
    | some v =>
      by_cases hv : v = 0
      · simpa [effectiveCaptureQuality, hv] using h
      · simp [effectiveCaptureQuality, hv]

/-- C10 witness: with the default config (fps 15, quality 60), the
constructor called with fps 0 yields a nonzero fps. -/
theorem C10_witness :
    (ScreenCapture.init defaultConfig (some 0) none none).fps ≠ 0 :=
  (C10_zero_defaults defaultConfig (some 0) none none none
      (ScreenCapture.init defaultConfig none none none)).2.2.2.2.2.2.1 (by decide)

/-! ## Invariants of the capture loop -/

theorem applyControl_quality_inv (s : ScreenCapture) (c : ControlMsg)
    (h : s.adaptive_quality = s.quality) :
    (applyControl s c).adaptive_quality = (applyControl s c).quality := by
  cases c <;> simp [applyControl, h]

theorem sessionRun_yield_quality (es : List SessionEvent) :
    ∀ st : LoopState, st.cap.adaptive_quality = st.cap.quality →
      ∀ q aq f af, (StreamEvent.yielded q aq f af) ∈ (sessionRun st es).1 → aq = q := by
  induction es with
  | nil =>
    intro st _ q aq f af he
    simp [sessionRun] at he
  | cons ev es ih =>
    intro st hinv q aq f af he
    match ev with
    | .control c =>
      simp only [sessionRun, sessionStep, List.nil_append] at he
      exact ih _ (applyControl_quality_inv _ _ hinv) q aq f af he
    | .frame (.success t) =>
      simp only [sessionRun, sessionStep, streamStep, List.cons_append,
        List.nil_append, List.mem_cons] at he
      rcases he with h | h | h
      · injection h with e1 e2 e3 e4
        subst e1; subst e2
        exact updateAdaptive_adaptive_quality st.cap t hinv
      · exact absurd h (by simp)
      · exact ih ⟨updateAdaptive st.cap t, 0⟩
          (updateAdaptive_adaptive_quality st.cap t hinv) q aq f af h
    | .frame .failNone =>
      by_cases hc : 10 < st.error_count + 1
      · simp [sessionRun, sessionStep, streamStep, hc] at he
      · simp only [sessionRun, sessionStep, streamStep, if_neg hc,
          List.cons_append, List.nil_append, List.mem_cons] at he
        rcases he with h | h
        · exact absurd h (by simp)
        · exact ih ⟨st.cap, st.error_count + 1⟩ hinv q aq f af h
    | .frame .failExc =>
      by_cases hc : 10 < st.error_count + 1
      · simp [sessionRun, sessionStep, streamStep, hc] at he
      · simp only [sessionRun, sessionStep, streamStep, if_neg hc,
          List.cons_append, List.nil_append, List.mem_cons] at he
        rcases he with h | h
        · exact absurd h (by simp)
        · exact ih ⟨st.cap, st.error_count + 1⟩ hinv q aq f af h

/-- C1: for every ws_screen session over a constructed ScreenCapture —
any script of capture-loop iterations (arbitrary observed latencies,
hence arbitrarily many rate-adaptation steps) interleaved with inbound
control messages — every yielded frame carries an adaptive quality equal
to the configured quality: rate adaptation never changes quality. -/
theorem C1_adaptive_quality_invariant (cfg : ServerConfig)
    (fps quality monitor : Option Int) (script : List SessionEvent)
    (q aq f af : Int)
    (hmem : (StreamEvent.yielded q aq f af) ∈
      (sessionRun (streamInit (ScreenCapture.init cfg fps quality monitor)) script).1) :
    aq = q :=
  sessionRun_yield_quality script _ rfl q aq f af hmem

/-- C1 witness: a concrete default-config run with one successful frame
yields the frame with adaptive quality 60 equal to configured quality
60. -/
theorem C1_witness :
    (StreamEvent.yielded 60 60 15 15) ∈
      (sessionRun (streamInit (ScreenCapture.init defaultConfig none none none))
        [.frame (.success 0)]).1 ∧ (60 : Int) = 60 :=
  ⟨by decide,
   C1_adaptive_quality_invariant defaultConfig none none none
     [.frame (.success 0)] 60 60 15 15 (by decide)⟩

theorem streamRun_yield_fps (os : List CaptureOutcome) :
    ∀ st : LoopState, 3 ≤ st.cap.fps → 3 ≤ st.cap.adaptive_fps →
      st.cap.adaptive_fps ≤ st.cap.fps →
      ∀ q aq f af, (StreamEvent.yielded q aq f af) ∈ (streamRun st os).1 →
        3 ≤ af ∧ af ≤ f := by
  induction os with
  | nil =>
    intro st _ _ _ q aq f af he
    simp [streamRun] at he
  | cons o os ih =>
    intro st hF h1 h2 q aq f af he
    match o with
    | .success t =>
      simp only [streamRun, streamStep, List.cons_append,
        List.nil_append, List.mem_cons] at he
      rcases he with h | h | h
      · injection h with e1 e2 e3 e4
        subst e3; subst e4
        exact updateAdaptive_fps_bounds st.cap t hF h1 h2
      · exact absurd h (by simp)
      · have hb := updateAdaptive_fps_bounds st.cap t hF h1 h2
        rw [updateAdaptive_fps] at hb
        exact ih ⟨updateAdaptive st.cap t, 0⟩
          (by rw [updateAdaptive_fps]; exact hF) hb.1
          (by rw [updateAdaptive_fps]; exact hb.2) q aq f af h
    | .failNone =>
      by_cases hc : 10 < st.error_count + 1
      · simp [streamRun, streamStep, hc] at he
      · simp only [streamRun, streamStep, if_neg hc, List.cons_append,
          List.nil_append, List.mem_cons] at he
        rcases he with h | h
        · exact absurd h (by simp)
        · exact ih ⟨st.cap, st.error_count + 1⟩ hF h1 h2 q aq f af h
    | .failExc =>
      by_cases hc : 10 < st.error_count + 1
      · simp [streamRun, streamStep, hc] at he
      · simp only [streamRun, streamStep, if_neg hc, List.cons_append,
          List.nil_append, List.mem_cons] at he
        rcases he with h | h
        · exact absurd h (by simp)
        · exact ih ⟨st.cap, st.error_count + 1⟩ hF h1 h2 q aq f af h

/-- C2 (amended): the adaptive fps starts at the configured fps, and
provided the configured fps resulting from the constructor is at least
3, every yielded frame of a stream_frames run satisfies
3 ≤ adaptive_fps ≤ configured_fps. The amendment relative to the claim:
the constructor also accepts fps values below 3 (for example 2), for
which the bound fails already at the first yielded frame, see the
counterexample. -/
theorem C2_bounds_of_fps_ge_three (cfg : ServerConfig)
    (fps quality monitor : Option Int)
    (hF : 3 ≤ (ScreenCapture.init cfg fps quality monitor).fps)
    (os : List CaptureOutcome) (q aq f af : Int)
    (hmem : (StreamEvent.yielded q aq f af) ∈
      (streamRun (streamInit (ScreenCapture.init cfg fps quality monitor)) os).1) :
    (streamInit (ScreenCapture.init cfg fps quality monitor)).cap.adaptive_fps =
      (ScreenCapture.init cfg fps quality monitor).fps ∧
    3 ≤ af ∧ af ≤ f :=
  ⟨rfl, streamRun_yield_fps os _ hF hF le_rfl q aq f af hmem⟩

/-- C2 counterexample to the claim as stated: the constructor accepts
fps = 2, and the run then yields its first frame with adaptive_fps = 2,
violating 3 ≤ adaptive_fps. -/
theorem C2_counterexample :
    (StreamEvent.yielded 60 60 2 2) ∈
      (streamRun (streamInit (ScreenCapture.init defaultConfig (some 2) none none))
        [.success 0]).1 ∧ ¬(3 ≤ (2 : Int)) :=
  ⟨by decide, by decide⟩

/-- C2 witness: a concrete default-config run (configured fps 15 ≥ 3)
with one successful frame yields adaptive_fps 15 within [3, 15]. -/
theorem C2_witness :
    (streamInit (ScreenCapture.init defaultConfig none none none)).cap.adaptive_fps =
      (ScreenCapture.init defaultConfig none none none).fps ∧
    3 ≤ (15 : Int) ∧ (15 : Int) ≤ 15 :=
  C2_bounds_of_fps_ge_three defaultConfig none none none (by decide)
    [.success 0] 60 60 15 15 (by decide)

/-! ## Error exhaustion in the capture loop -/

theorem streamRun_all_fail_continue (os : List CaptureOutcome) :
    (∀ o ∈ os, o = .failNone ∨ o = .failExc) →
    ∀ st : LoopState, st.error_count + os.length ≤ 10 →
      streamRun st os =
        (List.replicate os.length (.retrySleep (1 / 2)),
         some ⟨st.cap, st.error_count + os.length⟩) := by
  induction os with
  | nil =>
    intro _ st _
    simp [streamRun]
  | cons o os ih =>
    intro hall st h
    have hstep : streamStep st o =
        (some ⟨st.cap, st.error_count + 1⟩, [.retrySleep (1 / 2)]) := by
      rcases hall o (by simp) with ho | ho <;> subst ho <;>
        simp only [streamStep] <;> rw [if_neg (by simp at h; omega)]
    have hrec := ih (fun x hx => hall x (by simp [hx]))
      ⟨st.cap, st.error_count + 1⟩ (by simp at h ⊢; omega)
    simp only [streamRun, hstep, hrec, List.cons_append, List.nil_append]
    have harith : st.error_count + 1 + os.length = st.error_count + (os.length + 1) := by
      omega
    simp [List.replicate_succ, List.length_cons, harith]

theorem streamRun_all_fail_exhaust (os : List CaptureOutcome) :
    (∀ o ∈ os, o = .failNone ∨ o = .failExc) →
    ∀ st : LoopState, 11 ≤ st.error_count + os.length → st.error_count ≤ 10 →
      (streamRun st os).2 = none := by
  induction os with
  | nil =>
    intro _ st h1 h2
    exact absurd h1 (by simp; omega)
  | cons o os ih =>
    intro hall st h1 h2
    by_cases hc : 10 < st.error_count + 1
    · rcases hall o (by simp) with ho | ho <;> subst ho <;>
        simp [streamRun, streamStep, hc]
    · have hstep : streamStep st o =
          (some ⟨st.cap, st.error_count + 1⟩, [.retrySleep (1 / 2)]) := by
        rcases hall o (by simp) with ho | ho <;> subst ho <;>
          simp only [streamStep] <;> rw [if_neg hc]
      simp only [streamRun, hstep]
      exact ih (fun x hx => hall x (by simp [hx]))
        ⟨st.cap, st.error_count + 1⟩ (by simp at h1 ⊢; omega) (by simp; omega)

/-- C4: in every stream_frames run, 11 consecutive failed iterations
(frame data absent or an exception raised in the body — the model folds
the caught exception of screen_capture.py lines 380-385 into the same
counter) terminate the frame sequence by breaking out of the loop, a
normal generator termination with no exception crossing the boundary;
any shorter run of consecutive failures continues, each failure followed
by a 0.5-second retry sleep and the capture state unchanged; and a
successful iteration always resets the consecutive-error counter to
zero. -/
theorem C4_error_exhaustion (s : ScreenCapture) (fails : List CaptureOutcome)
    (hall : ∀ o ∈ fails, o = .failNone ∨ o = .failExc) :
    (fails.length = 11 → (streamRun (streamInit s) fails).2 = none) ∧
    (fails.length ≤ 10 →
      streamRun (streamInit s) fails =
        (List.replicate fails.length (.retrySleep (1 / 2)),
         some ⟨(streamInit s).cap, fails.length⟩)) ∧
    (∀ (st : LoopState) (t : ℚ), ∃ st2 evs,
      streamStep st (.success t) = (some st2, evs) ∧ st2.error_count = 0) := by
  refine ⟨?_, ?_, ?_⟩
  · intro hlen
    exact streamRun_all_fail_exhaust fails hall (streamInit s)
      (by simp [streamInit, hlen]) (by simp [streamInit])
  · intro hlen
    have h := streamRun_all_fail_continue fails hall (streamInit s)
      (by simp [streamInit]; omega)
    simpa [streamInit] using h
  · intro st t
    exact ⟨_, _, rfl, rfl⟩

/-- C4 witness: a concrete run of exactly 11 consecutive acquisition
failures terminates the sequence. -/
theorem C4_witness :
    (streamRun (streamInit (ScreenCapture.init defaultConfig none none none))
      (List.replicate 11 .failNone)).2 = none :=
  (C4_error_exhaustion _ _ (by decide)).1 (by decide)

/-! ## Backend detection -/

/-- C5: for every probe environment, `_detect_backend` returns exactly
one of the four backend kinds; under a Wayland session it selects the
compositor stream iff the ScreenCast introspection probe succeeded
(returncode 0 — a raised probe exception is `introspect = none` and so
counts as unavailable), otherwise the first available CLI tool in the
fixed order grim, gnome-screenshot, spectacle, otherwise the fallback;
outside a Wayland session it selects direct capture unconditionally;
and the result is a function of the probe outcomes alone, so re-running
detection under unchanged probes yields the same backend. -/
theorem C5_backend_detection (e e2 : ProbeEnv) :
    ((detectBackend e).kind = .compositorStream ∨ (detectBackend e).kind = .cliTool ∨
      (detectBackend e).kind = .fallback ∨ (detectBackend e).kind = .direct) ∧
    (e.isWayland = true → (detectBackend e = .pipewire ↔ e.introspect = some 0)) ∧
    (e.isWayland = true → e.introspect ≠ some 0 → e.grimOk = true →
      detectBackend e = .grim) ∧
    (e.isWayland = true → e.introspect ≠ some 0 → e.grimOk = false →
      e.gnomeScreenshotOk = true → detectBackend e = .gnomeScreenshot) ∧
    (e.isWayland = true → e.introspect ≠ some 0 → e.grimOk = false →
      e.gnomeScreenshotOk = false → e.spectacleOk = true →
      detectBackend e = .spectacle) ∧
    (e.isWayland = true → e.introspect ≠ some 0 → e.grimOk = false →
      e.gnomeScreenshotOk = false → e.spectacleOk = false →
      detectBackend e = .mssFallback) ∧
    (e.isWayland = false → detectBackend e = .mss) ∧
    (e.isWayland = e2.isWayland → e.introspect = e2.introspect →
      e.grimOk = e2.grimOk → e.gnomeScreenshotOk = e2.gnomeScreenshotOk →
      e.spectacleOk = e2.spectacleOk → detectBackend e = detectBackend e2) := by
  refine ⟨?_, ?_, ?_, ?_, ?_, ?_, ?_, ?_⟩
  · simp only [detectBackend]
    split_ifs <;> simp [Backend.kind]
  · intro hw
    by_cases hi : e.introspect = some 0
    · simp [detectBackend, hw, hi]
    · simp only [detectBackend, hw, if_true, if_neg hi]
      constructor
      · intro h
        split_ifs at h
      · intro h
        exact absurd h hi
  · intro hw hi hg
    simp [detectBackend, hw, hi, hg]
  · intro hw hi hg hn
    simp [detectBackend, hw, hi, hg, hn]
  · intro hw hi hg hn hp
    simp [detectBackend, hw, hi, hg, hn, hp]
  · intro hw hi hg hn hp
    simp [detectBackend, hw, hi, hg, hn, hp]
  · intro hw
    simp [detectBackend, hw]
  · intro h1 h2 h3 h4 h5
    obtain ⟨w, i, g, n, p⟩ := e
    obtain ⟨w2, i2, g2, n2, p2⟩ := e2
    simp only at h1 h2 h3 h4 h5
    subst h1; subst h2; subst h3; subst h4; subst h5
    rfl

/-- C5 witness: outside a Wayland session detection returns the direct
mss backend. -/
theorem C5_witness :
    detectBackend ⟨false, none, false, false, false⟩ = .mss :=
  (C5_backend_detection ⟨false, none, false, false, false⟩
    ⟨false, none, false, false, false⟩).2.2.2.2.2.2.1 rfl

/-! ## Helper bridge call semantics -/

theorem procAlive_set_ready (b : WIB) (r : Bool) :
    WIB.procAlive { b with ready := r } = b.procAlive :=
  rfl

/-- C6 (amended): any `_send` made while the input helper is dead (not
ready, no process handle, or process exited) first re-runs the start
protocol. When the spawn call of the restart does not itself raise, the
call never raises: a restart that fails to reach ready returns the
structured "Input backend not available" error as an ordinary value, a
successful restart proceeds with the guarded send body, and a live
helper that yields no response line within the 2-second timeout (select
timeout or empty line) gets the ok envelope, success-assumed. The
amendment relative to the claim: when the restart's `subprocess.Popen`
itself raises (line 66, outside the try of `start`; `_send` calls
`start()` at line 119, outside its own try at line 123), the exception
propagates out of the call instead of the structured error being
returned. -/
theorem C6_send_exception_paths (b : WIB) (env : SpawnEnv) (resp : RespOutcome) :
    (env.spawnRaises = none →
      WIB.sendEx b env resp = .ok (WIB.send b ⟨env.polls⟩ resp)) ∧
    (b.dead = true → env.spawnRaises = none →
      (WIB.start { b with ready := false } ⟨env.polls⟩).ready = false →
      WIB.sendEx b env resp =
        .ok ({ status := "error", message := some ("Input backend not available") },
          WIB.start { b with ready := false } ⟨env.polls⟩)) ∧
    (b.dead = true → env.spawnRaises = none →
      (WIB.start { b with ready := false } ⟨env.polls⟩).ready = true →
      WIB.sendEx b env resp =
        .ok (sendBody (WIB.start { b with ready := false } ⟨env.polls⟩) resp)) ∧
    (∀ m, b.dead = true → b.procAlive = false → env.spawnRaises = some m →
      WIB.sendEx b env resp = .error m) ∧
    (b.dead = false → resp = .noResponse →
      WIB.sendEx b env resp = .ok ({ status := "ok" }, b)) ∧
    (b.dead = false → resp = .emptyLine →
      WIB.sendEx b env resp = .ok ({ status := "ok" }, b)) := by
  refine ⟨?_, ?_, ?_, ?_, ?_, ?_⟩
  · intro hs
    by_cases hd : b.dead
    · simp only [WIB.sendEx, WIB.send, hd, if_true, WIB.startEx, hs]
      by_cases hal : WIB.procAlive { b with ready := false }
      · simp [hal, WIB.start]
      · simp only [hal, Bool.false_eq_true, if_false]
        by_cases hr : (WIB.start { b with ready := false } ⟨env.polls⟩).ready
        · simp [hr]
        · simp [hr]
    · simp [WIB.sendEx, WIB.send, hd]
  · intro hd hs hr
    simp only [WIB.sendEx, hd, if_true, WIB.startEx, hs]
    by_cases hal : WIB.procAlive { b with ready := false }
    · simp only [WIB.start, hal, if_true] at hr ⊢
      simp [hr]
    · simp only [hal, Bool.false_eq_true, if_false]
      simp [hr]
  · intro hd hs hr
    simp only [WIB.sendEx, hd, if_true, WIB.startEx, hs]
    by_cases hal : WIB.procAlive { b with ready := false }
    · simp [WIB.start, hal] at hr
    · simp only [hal, Bool.false_eq_true, if_false]
      simp [hr]
  · intro m hd hal hs
    simp [WIB.sendEx, hd, WIB.startEx, procAlive_set_ready, hal, hs]
  · intro hd hr
    subst hr
    simp [WIB.sendEx, hd, sendBody]
  · intro hd hr
    subst hr
    simp [WIB.sendEx, hd, sendBody]

/-- C6 counterexample to the claim as stated: a send on a dead backend
whose restart hits a spawn failure (`subprocess.Popen` raising
FileNotFoundError for the hardcoded interpreter) propagates the
exception out of the call instead of returning the structured "Input
backend not available" error result. -/
theorem C6_counterexample :
    WIB.sendEx { process := none, ready := false }
        { spawnRaises := some ("FileNotFoundError"), polls := [] } .noResponse =
      .error ("FileNotFoundError") ∧
    (Except.error ("FileNotFoundError") : Except String (RespDict × WIB)) ≠
      .ok ({ status := "error", message := some ("Input backend not available") },
        { process := none, ready := false }) :=
  ⟨rfl, by simp⟩

/-- C6 witness: a send on a dead backend whose restart spawns without
raising but sees no helper output returns the "Input backend not
available" error envelope as a value. -/
theorem C6_witness :
    WIB.sendEx { process := none, ready := false }
        { spawnRaises := none, polls := [] } .noResponse =
      .ok ({ status := "error", message := some ("Input backend not available") },
        { process := none, ready := false }) :=
  ((C6_send_exception_paths { process := none, ready := false }
      { spawnRaises := none, polls := [] } .noResponse).2.1
    (by decide) rfl (by decide)).trans rfl

/-! ## Helper bridge start protocols -/

theorem scanPw_timeout (n : Nat) :
    ∀ polls : List PwLine, (∀ l ∈ polls, l = .otherLine ∨ l = .noLine) →
      scanPw polls n = .timeout := by
  induction n with
  | zero =>
    intro polls _
    cases polls <;> rfl
  | succ n ih =>
    intro polls h
    cases polls with
    | nil => rfl
    | cons l ls =>
      rcases h l (by simp) with hl | hl <;> subst hl <;>
        exact ih ls (fun x hx => h x (by simp [hx]))

theorem scanInput_timeout (n : Nat) :
    ∀ polls : List HelperLine, (∀ l ∈ polls, l = .otherLine ∨ l = .noLine) →
      scanInput polls n = .timeout := by
  induction n with
  | zero =>
    intro polls _
    cases polls <;> rfl
  | succ n ih =>
    intro polls h
    cases polls with
    | nil => rfl
    | cons l ls =>
      rcases h l (by simp) with hl | hl <;> subst hl <;>
        exact ih ls (fun x hx => h x (by simp [hx]))

/-- C7 (amended): both helper start protocols poll the helper stdout in
0.5-second steps for the first significant status line and, when no
ready signal arrives within the poll budget, terminate the helper
process and leave the backend dead rather than blocking indefinitely.
The amendment relative to the claim: the budgets are not both
approximately 10 seconds — the capture-session helper polls 10 times
(≈5 seconds) while the input helper polls 20 times (≈10 seconds). -/
theorem C7_start_protocol :
    captureStartBudget = 5 ∧ inputStartBudget = 10 ∧
    (∀ polls : List PwLine, (∀ l ∈ polls, l = .otherLine ∨ l = .noLine) →
      startPipewireSession polls = { nodeId := none, procRunning := false }) ∧
    (∀ (b : WIB) (env : StartEnv), b.process = none →
      (∀ l ∈ env.polls, l = .otherLine ∨ l = .noLine) →
      WIB.start b env = { process := none, ready := false }) := by
  refine ⟨?_, ?_, ?_, ?_⟩
  · norm_num [captureStartBudget, capturePollCount, pollInterval]
  · norm_num [inputStartBudget, inputPollCount, pollInterval]
  · intro polls h
    simp [startPipewireSession, scanPw_timeout 10 polls h]
  · intro b env hb h
    have hal : b.procAlive = false := by simp [WIB.procAlive, hb]
    simp [WIB.start, hal, inputPollCount, scanInput_timeout 20 env.polls h]

/-- C7 counterexample to the claim as stated: the two poll budgets
differ — the capture-session helper gives up after 10 polls of 0.5 s
(5 seconds), half the input helper budget of 10 seconds, so the two
protocols do not both poll for approximately 10 seconds. -/
theorem C7_counterexample :
    captureStartBudget = 5 ∧ inputStartBudget = 10 ∧
    captureStartBudget ≠ inputStartBudget := by
  refine ⟨?_, ?_, ?_⟩ <;>
    norm_num [captureStartBudget, inputStartBudget, capturePollCount,
      inputPollCount, pollInterval]

/-- C7 witness: a capture-helper start that observes no output at all
ends with no node id and the helper terminated. -/
theorem C7_witness :
    startPipewireSession [] = { nodeId := none, procRunning := false } :=
  C7_start_protocol.2.2.1 [] (by simp)

/-! ## Input command router -/

/-- C8 (amended): of the four configuration command types, only
set_sensitivity is handled by the input-command router
(InputHandler.process_command): it mutates the clamped sensitivity of
the session, performs no backend call, and returns the ok envelope. The
types set_quality, set_fps and set_monitor reach the unknown-command
branch of the router and get the error envelope; they are instead
handled by the screen-streaming channel (ws_screen), whose control
handler mutates the capture session configuration without any backend
call. -/
theorem C8_config_commands (st : IHState) (env : BackendEnv) (v : ℚ)
    (c : InputCmd) (s : ScreenCapture) (q f m : Int) :
    (processCommand st env { ctype := "set_sensitivity", value := some v } =
      (.ok, { st with sensitivity := clampSensitivity v }, [])) ∧
    (c.ctype = "set_quality" →
      processCommand st env c = (.error ("Unknown command: " ++ c.ctype), st, [])) ∧
    (c.ctype = "set_fps" →
      processCommand st env c = (.error ("Unknown command: " ++ c.ctype), st, [])) ∧
    (c.ctype = "set_monitor" →
      processCommand st env c = (.error ("Unknown command: " ++ c.ctype), st, [])) ∧
    (applyControl s (.setQuality q) = { s with quality := q, adaptive_quality := q }) ∧
    (applyControl s (.setFps f) = { s with fps := f, adaptive_fps := f }) ∧
    (applyControl s (.setMonitor m) = { s with monitor := m }) := by
  refine ⟨?_, ?_, ?_, ?_, rfl, rfl, rfl⟩
  · simp [processCommand, dispatchBody]
  · intro h
    simp [processCommand, dispatchBody, h]
  · intro h
    simp [processCommand, dispatchBody, h]
  · intro h
    simp [processCommand, dispatchBody, h]

/-- C8 counterexample to the claim as stated: a set_quality command
given to InputHandler.process_command returns the unknown-command error
envelope, not the ok envelope (and mutates nothing). -/
theorem C8_counterexample :
    processCommand { sensitivity := 1, dragActive := false }
        { raise := none, clipboardRaise := none, clipboardContent := "" }
        { ctype := "set_quality" } =
      (.error ("Unknown command: set_quality"),
        { sensitivity := 1, dragActive := false }, []) ∧
    CmdOutcome.error ("Unknown command: set_quality") ≠ .ok :=
  ⟨rfl, by decide⟩

/-- C8 witness: a concrete set_fps command to the router gets the
unknown-command error envelope. -/
theorem C8_witness :
    processCommand ⟨1, false⟩ ⟨none, none, ""⟩ { ctype := "set_fps" } =
      (.error ("Unknown command: " ++ "set_fps"), ⟨1, false⟩, []) :=
  (C8_config_commands ⟨1, false⟩ ⟨none, none, ""⟩ 1 { ctype := "set_fps" }
    fastWindowCapture 0 0 0).2.2.1 rfl

/-- C9 (amended): the guarded dispatch of InputHandler.process_command
(the try at line 305) always returns a result dictionary — the ok
envelope, an error envelope (in particular the unknown-command error
for unrecognized types), or the clipboard result object — and any
exception raised inside that guarded body is caught and converted to
the error envelope carrying the exception text; whenever
`ensure_started` returns normally the whole call therefore returns a
result dictionary. The amendment relative to the claim:
`ensure_started` runs at line 303, before the try, and an exception it
raises (the unguarded `subprocess.Popen` in `start`, reached when the
Wayland backend is not ready and its process is not alive) propagates
to the caller instead of being converted. -/
theorem C9_router_exception_paths (wb : WIB) (senv : SpawnEnv)
    (st : IHState) (env : BackendEnv) (c : InputCmd) :
    (∀ msg st2 calls, dispatchBody st env c = .error (msg, st2, calls) →
      processCommand st env c = (.error msg, st2, calls)) ∧
    ((processCommand st env c).1 = .ok ∨
      (∃ msg, (processCommand st env c).1 = .error msg) ∨
      (∃ a cnt, (processCommand st env c).1 = .clipOk a cnt)) ∧
    (c.ctype ∉ knownCmdTypes →
      processCommand st env c = (.error ("Unknown command: " ++ c.ctype), st, [])) ∧
    (∀ wb2, ensureStarted wb senv = .ok wb2 →
      processCommandFull wb senv st env c = .ok (processCommand st env c)) ∧
    (∀ m, ensureStarted wb senv = .error m →
      processCommandFull wb senv st env c = .error m) ∧
    (∀ m, wb.ready = false → wb.procAlive = false → senv.spawnRaises = some m →
      processCommandFull wb senv st env c = .error m) := by
  refine ⟨?_, ?_, ?_, ?_, ?_, ?_⟩
  · intro msg st2 calls h
    simp [processCommand, h]
  · rcases h : (processCommand st env c).1 with _ | msg | ⟨a, cnt⟩
    · exact Or.inl rfl
    · exact Or.inr (Or.inl ⟨msg, rfl⟩)
    · exact Or.inr (Or.inr ⟨a, cnt, rfl⟩)
  · intro h
    simp only [knownCmdTypes, List.mem_cons, List.not_mem_nil, or_false, not_or] at h
    obtain ⟨h1, h2, h3, h4, h5, h6, h7, h8, h9, h10⟩ := h
    simp [processCommand, dispatchBody, h1, h2, h3, h4, h5, h6, h7, h8, h9, h10]
  · intro wb2 h
    simp [processCommandFull, h]
  · intro m h
    simp [processCommandFull, h]
  · intro m h1 h2 h3
    simp [processCommandFull, ensureStarted, h1, WIB.startEx, h2, h3]

/-- C9 counterexample to the claim as stated: a mouse_move command
handled while the Wayland backend is down and the helper spawn raises
makes process_command propagate the exception to the caller instead of
returning the error envelope. -/
theorem C9_counterexample :
    processCommandFull { process := none, ready := false }
        { spawnRaises := some ("FileNotFoundError"), polls := [] }
        { sensitivity := 1, dragActive := false }
        { raise := none, clipboardRaise := none, clipboardContent := "" }
        { ctype := "mouse_move" } = .error ("FileNotFoundError") ∧
    (Except.error ("FileNotFoundError") :
        Except String (CmdOutcome × IHState × List BackendCall)) ≠
      .ok (.error ("FileNotFoundError"),
        { sensitivity := 1, dragActive := false }, []) :=
  ⟨rfl, by simp⟩

/-- C9 witness: with a ready backend (ensure_started returns normally),
an unrecognized command type gets the structured unknown-command error
envelope back as an ordinary return value, state untouched. -/
theorem C9_witness :
    processCommandFull { process := some true, ready := true }
        { spawnRaises := none, polls := [] }
        { sensitivity := 1, dragActive := false }
        { raise := none, clipboardRaise := none, clipboardContent := "" }
        { ctype := "bogus" } =
      .ok (.error ("Unknown command: " ++ "bogus"),
        { sensitivity := 1, dragActive := false }, []) := by
  have h := (C9_router_exception_paths { process := some true, ready := true }
    { spawnRaises := none, polls := [] } { sensitivity := 1, dragActive := false }
    { raise := none, clipboardRaise := none, clipboardContent := "" }
    { ctype := "bogus" }).2.2.2.1 { process := some true, ready := true } rfl
  rw [h]
  rw [(C9_router_exception_paths { process := some true, ready := true }
    { spawnRaises := none, polls := [] } { sensitivity := 1, dragActive := false }
    { raise := none, clipboardRaise := none, clipboardContent := "" }
    { ctype := "bogus" }).2.2.1 (by decide)]

end DSK
